import Mathlib

/-!
# Verification of callisto-core's encrypted-report model

Shallow embedding of `src/callisto/delivery/models.py` (the cryptographic
core: module-level helpers `_encrypt_report`, `_decrypt_report`, `_pepper`,
`_unpepper`, and the model methods of `Report` and `MatchReport`).

Modelling conventions:

* Byte strings are modelled symbolically by the inductive type `Bytes`.
  NaCl's `SecretBox` (Salsa20 + Poly1305 authenticated encryption) is
  modelled as an ideal authenticated cipher: `box.encrypt(message, nonce)`
  under key `k` is the constructor `Bytes.sealed k nonce message`, and
  `box.decrypt` succeeds exactly on blobs sealed under the same key,
  returning exactly the sealed payload.  This is the standard symbolic
  (Dolev–Yao) idealization of authenticated encryption: wrong keys and
  tampered blobs fail closed, and a successful decryption returns the
  authentic plaintext.
* Django's `pbkdf2(key, salt, iterations, digest=sha256)` is modelled as a
  deterministic function of its inputs that records them in the derived
  key, matching its contract (deterministic; the same inputs always give
  the same stretched key).
* Randomness (`nacl.utils.random` nonces, `get_random_string` salts) and
  the clock (`timezone.now()`) are made explicit: every random draw or
  clock read a Python function performs becomes an extra argument of the
  Lean function.
* Python exceptions become `Except Exc`: `Exc.CryptoError` is nacl's
  `CryptoError` (of which the code's `DecryptionFailed` condition is an
  instance), and `Exc.UnicodeDecodeError` is the error `bytes.decode
  ('utf-8')` raises on bytes that are not valid UTF-8.
* Django model instances become Lean structures carrying the fields the
  cryptographic core reads or writes (`encrypted`, `salt`, `autosaved`,
  `last_edited`, `match_found`, `seen`); ORM bookkeeping fields such as
  foreign keys, contact e-mail addresses and `added` timestamps are
  irrelevant to the claims and omitted.  A method that assigns to `self`
  returns the updated structure.
-/

/-- Python exceptions relevant to the embedded code. -/
inductive Exc where
  | CryptoError
  | UnicodeDecodeError
deriving DecidableEq, Repr

/-- Symbolic byte strings.  `utf8 s` is the UTF-8 encoding of the string
`s`; `sealed k n m` is the output of `SecretBox(k).encrypt(m, n)`, i.e.
the fixed-width nonce `n` prepended to the authenticated ciphertext of
payload `m` under key `k`; `junk i` stands for an arbitrary other byte
string (such as a corrupted blob, or bytes that are not valid UTF-8). -/
inductive Bytes where
  | utf8 (s : String)
  | sealed (key : List Nat) (nonce : Nat) (payload : Bytes)
  | junk (i : Nat)
deriving DecidableEq, Repr

/-- The nonce prepended to a `SecretBox` ciphertext blob, when the blob is
one (the first `NONCE_SIZE` bytes of the blob). -/
def Bytes.blobNonce : Bytes → Option Nat
  | .sealed _ n _ => some n
  | _ => none

/-- `SecretBox(key).encrypt(message, nonce)`: the nonce-prefixed
authenticated ciphertext of `message` under `key`. -/
def SecretBox.encrypt (key : List Nat) (message : Bytes) (nonce : Nat) : Bytes :=
  .sealed key nonce message

/-- `SecretBox(key).decrypt(blob)`: succeeds exactly on blobs produced by
`SecretBox.encrypt` under the same key (authenticated decryption); `none`
models raising `CryptoError`. -/
def SecretBox.decrypt (key : List Nat) (blob : Bytes) : Option Bytes :=
  match blob with
  | .sealed k _ m => if k = key then some m else none
  | _ => none

/-- `bytes.decode('utf-8')`: succeeds exactly on the UTF-8 encoding of a
string; `none` models raising `UnicodeDecodeError`. -/
def Bytes.decodeUtf8 : Bytes → Option String
  | .utf8 s => some s
  | _ => none

/-- `settings.KEY_ITERATIONS`: the server-wide configured PBKDF2 iteration
count (the spec's concrete scenario uses 100000). -/
def KEY_ITERATIONS : Nat := 100000

/-- Django's `pbkdf2(key, salt, iterations, digest=sha256)`, modelled as a
deterministic key-stretching function whose 32-byte output is a function
of exactly `(key, salt, iterations)`; the symbolic derived key records
those inputs (character codes of `key`, a separator, character codes of
`salt`, and the iteration count). -/
def pbkdf2 (key salt : String) (iterations : Nat) : List Nat :=
  (key.toList.map Char.toNat) ++ [1114112] ++ (salt.toList.map Char.toNat) ++ [iterations]

/-- `settings.PEPPER`: the server-held 32-byte pepper secret, configured at
deployment.  Modelled as a fixed byte string distinct from every stretched
user key. -/
def PEPPER : List Nat := List.range 32

/-- `_encrypt_report(salt, key, report_text)`: stretches `key` with `salt`
via PBKDF2, then encrypts the UTF-8 encoding of `report_text` with
`SecretBox` under the stretched key and a fresh random nonce (here the
explicit argument `nonce`). -/
def _encrypt_report (salt key report_text : String) (nonce : Nat) : Bytes :=
  let stretched_key := pbkdf2 key salt KEY_ITERATIONS
  SecretBox.encrypt stretched_key (.utf8 report_text) nonce

/-- `_decrypt_report(salt, key, encrypted)`: stretches `key` with `salt`,
decrypts with `SecretBox` (raising `CryptoError` on failure), then decodes
the plaintext bytes as UTF-8 (raising `UnicodeDecodeError` on failure). -/
def _decrypt_report (salt key : String) (encrypted : Bytes) : Except Exc String :=
  let stretched_key := pbkdf2 key salt KEY_ITERATIONS
  match SecretBox.decrypt stretched_key encrypted with
  | none => .error .CryptoError
  | some decrypted =>
    match decrypted.decodeUtf8 with
    | none => .error .UnicodeDecodeError
    | some s => .ok s

/-- `_pepper(encrypted_report)`: re-encrypts an already encrypted report
with `SecretBox` under the server-held `settings.PEPPER` key and a fresh
random nonce (the explicit argument `nonce`). -/
def _pepper (encrypted_report : Bytes) (nonce : Nat) : Bytes :=
  SecretBox.encrypt PEPPER encrypted_report nonce

/-- `_unpepper(peppered_report)`: decrypts a peppered report with
`SecretBox` under `settings.PEPPER`, raising `CryptoError` on failure. -/
def _unpepper (peppered_report : Bytes) : Except Exc Bytes :=
  match SecretBox.decrypt PEPPER peppered_report with
  | none => .error .CryptoError
  | some decrypted => .ok decrypted

/-- The fields of the `Report` Django model that the cryptographic core
reads or writes.  An empty `salt` models the falsy (unset) salt tested by
`if not self.salt`; `last_edited` is nullable. -/
structure Report where
  encrypted : Bytes
  salt : String
  autosaved : Bool
  last_edited : Option Nat
  match_found : Bool
deriving DecidableEq, Repr

/-- `Report.encrypt_report(report_text, key, edit, autosave)`: if no salt
is set, store the fresh random salt (argument `freshSalt`); otherwise, if
`edit`, set `last_edited` to the current time (argument `now`); then store
`autosave` in `autosaved` and the encryption of `report_text` under the
stored salt in `encrypted`. -/
def Report.encrypt_report (self : Report) (report_text key : String)
    (edit autosave : Bool) (freshSalt : String) (nonce : Nat) (now : Nat) : Report :=
  let self :=
    if self.salt = "" then { self with salt := freshSalt }
    else if edit then { self with last_edited := some now }
    else self
  { self with
    autosaved := autosave
    encrypted := _encrypt_report self.salt key report_text nonce }

/-- `Report.decrypted_report(key)`: decrypts `self.encrypted` with `key`
and the salt stored on the report. -/
def Report.decrypted_report (self : Report) (key : String) : Except Exc String :=
  _decrypt_report self.salt key self.encrypted

/-- The fields of the `MatchReport` Django model that the cryptographic
core reads or writes. -/
structure MatchReport where
  seen : Bool
  encrypted : Bytes
  salt : String
deriving DecidableEq, Repr

/-- `MatchReport.encrypt_match_report(report_text, key)`: stores a fresh
random salt (argument `freshSalt`, assigned unconditionally), then stores
in `encrypted` the pepper-encryption of the encryption of `report_text`
under the new salt and `key` (two `SecretBox` layers, with independent
fresh nonces `nonceInner` and `noncePepper`). -/
def MatchReport.encrypt_match_report (self : MatchReport) (report_text key : String)
    (freshSalt : String) (nonceInner noncePepper : Nat) : MatchReport :=
  let self := { self with salt := freshSalt }
  { self with
    encrypted := _pepper (_encrypt_report self.salt key report_text nonceInner) noncePepper }

/-- `MatchReport.get_match(identifier)`: tries
`_decrypt_report(salt, identifier, _unpepper(encrypted))` under a
`try/except CryptoError: pass`, so a `CryptoError` from either step yields
`None` (no match) while any other exception propagates.  The method
assigns to no field of `self`, so the record is returned unchanged. -/
def MatchReport.get_match (self : MatchReport) (identifier : String) :
    Except Exc (Option String) × MatchReport :=
  let result : Except Exc (Option String) :=
    match _unpepper self.encrypted with
    | .error .CryptoError => .ok none
    | .error e => .error e
    | .ok inner =>
      match _decrypt_report self.salt identifier inner with
      | .error .CryptoError => .ok none
      | .error e => .error e
      | .ok s => .ok (some s)
  (result, self)

/-- `Report.withdraw_from_matching()` mutates both the report row and the
set of `MatchReport` rows referencing it, so its state is a report
together with its `matchreport_set`. -/
structure ReportState where
  report : Report
  matchreport_set : List MatchReport
deriving DecidableEq, Repr

/-- `Report.withdraw_from_matching()`: deletes all associated
`MatchReport` rows (`self.matchreport_set.all().delete()`) and clears
`match_found`. -/
def Report.withdraw_from_matching (s : ReportState) : ReportState :=
  { report := { s.report with match_found := false }, matchreport_set := [] }

/-- Modelled from the spec: `scan_matches(identifier, candidates)` — the
Matching Engine of spec §4.5/§6 is not present under `src/` (only
`MatchReport.get_match` is); per the spec it trial-decrypts every
candidate with the identifier, treats each failure as "not a match", and
returns the plaintexts of all matches. -/
def scan_matches (identifier : String) (candidates : List MatchReport) : List String :=
  candidates.filterMap fun r =>
    match (r.get_match identifier).1 with
    | .ok (some s) => some s
    | _ => none

/-- Claim C1: round-trip decryption — for every salt, key, nonce and
plaintext, `_decrypt_report` of `_encrypt_report` under the same salt and
key returns the plaintext; consequently after any `Report.encrypt_report`
call, `Report.decrypted_report` with the same key returns the text that
was encrypted. -/
theorem C1_round_trip :
    (∀ (salt key P : String) (nonce : Nat),
      _decrypt_report salt key (_encrypt_report salt key P nonce) = .ok P) ∧
    (∀ (r : Report) (text key : String) (edit autosave : Bool)
        (freshSalt : String) (nonce now : Nat),
      (r.encrypt_report text key edit autosave freshSalt nonce now).decrypted_report key
        = .ok text) := by
  constructor
  · intro salt key P nonce
    simp [_decrypt_report, _encrypt_report, SecretBox.decrypt, SecretBox.encrypt,
      Bytes.decodeUtf8]
  · intro r text key edit autosave freshSalt nonce now
    simp only [Report.encrypt_report, Report.decrypted_report]
    split <;> [skip; split] <;>
      simp [_decrypt_report, _encrypt_report, SecretBox.decrypt, SecretBox.encrypt,
        Bytes.decodeUtf8]

/-- A `MatchReport` row as created before its first `encrypt_match_report`
call: unseen, no meaningful blob or salt yet. -/
def blankMatchReport : MatchReport := { seen := false, encrypted := .junk 0, salt := "" }

/-- The spec's concrete matching scenario, first record: identifier
"alice123", plaintext "report-A". -/
def matchRecordA : MatchReport :=
  blankMatchReport.encrypt_match_report "report-A" "alice123" "saltA" 1 2

/-- The spec's concrete matching scenario, second record: identifier
"bob456", plaintext "report-B". -/
def matchRecordB : MatchReport :=
  blankMatchReport.encrypt_match_report "report-B" "bob456" "saltB" 3 4

/-- The spec's concrete matching scenario, third record: identifier
"alice123", plaintext "report-C". -/
def matchRecordC : MatchReport :=
  blankMatchReport.encrypt_match_report "report-C" "alice123" "saltC" 5 6

/-- Claim C2: matching correctness — a record produced by
`encrypt_match_report(P, id)` yields `P` from `get_match(id)`, yields
`None` from `get_match(id2)` whenever the key stretched from `id2` with
the record's salt differs from the one stretched from `id`, and scanning
the spec's three concrete records with "alice123" returns exactly
["report-A", "report-C"] and not "report-B". -/
theorem C2_matching_correctness :
    (∀ (r0 : MatchReport) (P id freshSalt : String) (n1 n2 : Nat),
      ((r0.encrypt_match_report P id freshSalt n1 n2).get_match id).1 = .ok (some P)) ∧
    (∀ (r0 : MatchReport) (P id id2 freshSalt : String) (n1 n2 : Nat),
      pbkdf2 id2 freshSalt KEY_ITERATIONS ≠ pbkdf2 id freshSalt KEY_ITERATIONS →
      ((r0.encrypt_match_report P id freshSalt n1 n2).get_match id2).1 = .ok none) ∧
    scan_matches "alice123" [matchRecordA, matchRecordB, matchRecordC]
      = ["report-A", "report-C"] := by
  refine ⟨?_, ?_, ?_⟩
  · intro r0 P id freshSalt n1 n2
    simp [MatchReport.encrypt_match_report, MatchReport.get_match, _pepper, _unpepper,
      _encrypt_report, _decrypt_report, SecretBox.encrypt, SecretBox.decrypt,
      Bytes.decodeUtf8]
  · intro r0 P id id2 freshSalt n1 n2 h
    simp [MatchReport.encrypt_match_report, MatchReport.get_match, _pepper, _unpepper,
      _encrypt_report, _decrypt_report, SecretBox.encrypt, SecretBox.decrypt,
      Bytes.decodeUtf8, Ne.symm h]
  · decide

/-- Witness for C2: the "bob456" record of the concrete scenario does not
match the identifier "alice123" (its stretched key differs). -/
theorem C2_matching_correctness_witness :
    ((blankMatchReport.encrypt_match_report "report-B" "bob456" "saltB" 3 4).get_match
      "alice123").1 = .ok none :=
  C2_matching_correctness.2.1 blankMatchReport "report-B" "bob456" "alice123" "saltB" 3 4
    (by decide)

/-- Claim C3: authenticated failure — decrypting with a key whose
stretched form differs from the encrypting one raises `CryptoError`
(`DecryptionFailed`); and whenever `_decrypt_report` returns a string at
all, the input blob was exactly the authentic encryption of that string
under the stretched key (so no tampered or corrupted blob can yield
corrupted plaintext). -/
theorem C3_wrong_key_fails :
    (∀ (salt key1 key2 P : String) (nonce : Nat),
      pbkdf2 key2 salt KEY_ITERATIONS ≠ pbkdf2 key1 salt KEY_ITERATIONS →
      _decrypt_report salt key2 (_encrypt_report salt key1 P nonce) = .error .CryptoError) ∧
    (∀ (salt key s : String) (b : Bytes),
      _decrypt_report salt key b = .ok s →
      ∃ n : Nat, b = .sealed (pbkdf2 key salt KEY_ITERATIONS) n (.utf8 s)) := by
  constructor
  · intro salt key1 key2 P nonce h
    simp [_decrypt_report, _encrypt_report, SecretBox.encrypt, SecretBox.decrypt,
      Ne.symm h]
  · intro salt key s b hb
    match b with
    | .utf8 t => simp [_decrypt_report, SecretBox.decrypt] at hb
    | .junk i => simp [_decrypt_report, SecretBox.decrypt] at hb
    | .sealed k n m =>
      refine ⟨n, ?_⟩
      by_cases hk : k = pbkdf2 key salt KEY_ITERATIONS
      · subst hk
        match m with
        | .utf8 t =>
          simp [_decrypt_report, SecretBox.decrypt, Bytes.decodeUtf8] at hb
          rw [hb]
        | .sealed k2 n2 m2 => simp [_decrypt_report, SecretBox.decrypt, Bytes.decodeUtf8] at hb
        | .junk i => simp [_decrypt_report, SecretBox.decrypt, Bytes.decodeUtf8] at hb
      · simp [_decrypt_report, SecretBox.decrypt, hk] at hb

/-- Witness for C3: decrypting an encryption under key "k1" with the
different key "k2" (same salt "s") raises `CryptoError`. -/
theorem C3_wrong_key_fails_witness :
    _decrypt_report "s" "k2" (_encrypt_report "s" "k1" "P" 0) = .error .CryptoError :=
  C3_wrong_key_fails.1 "s" "k1" "k2" "P" 0 (by decide)

/-- Claim C4: pepper round-trip — `_unpepper` of `_pepper` returns the
original blob for every byte blob and nonce; and `_unpepper` succeeds only
on blobs that are pepper-encryptions under the current `settings.PEPPER`
key, so any non-peppered or corrupted input fails closed with
`CryptoError`. -/
theorem C4_pepper_round_trip :
    (∀ (B : Bytes) (nonce : Nat), _unpepper (_pepper B nonce) = .ok B) ∧
    (∀ (b m : Bytes), _unpepper b = .ok m → ∃ n : Nat, b = .sealed PEPPER n m) ∧
    (∀ (b : Bytes), (∀ (n : Nat) (m : Bytes), b ≠ .sealed PEPPER n m) →
      _unpepper b = .error .CryptoError) := by
  refine ⟨?_, ?_, ?_⟩
  · intro B nonce
    simp [_unpepper, _pepper, SecretBox.encrypt, SecretBox.decrypt]
  · intro b m hb
    match b with
    | .utf8 t => simp [_unpepper, SecretBox.decrypt] at hb
    | .junk i => simp [_unpepper, SecretBox.decrypt] at hb
    | .sealed k n p =>
      refine ⟨n, ?_⟩
      by_cases hk : k = PEPPER
      · subst hk
        simp [_unpepper, SecretBox.decrypt] at hb
        rw [hb]
      · simp [_unpepper, SecretBox.decrypt, hk] at hb
  · intro b hb
    match b with
    | .utf8 t => simp [_unpepper, SecretBox.decrypt]
    | .junk i => simp [_unpepper, SecretBox.decrypt]
    | .sealed k n p =>
      have hk : k ≠ PEPPER := by
        intro h
        exact hb n p (by rw [h])
      simp [_unpepper, SecretBox.decrypt, hk]

/-- Witness for C4: a blob sealed under the pepper key unpeppers to its
payload, and a junk blob (never a pepper-encryption) fails with
`CryptoError`. -/
theorem C4_pepper_round_trip_witness :
    (∃ n : Nat, Bytes.sealed PEPPER 7 (.junk 5) = .sealed PEPPER n (.junk 5)) ∧
    _unpepper (.junk 9) = .error .CryptoError :=
  ⟨C4_pepper_round_trip.2.1 (.sealed PEPPER 7 (.junk 5)) (.junk 5) (by rfl),
   C4_pepper_round_trip.2.2 (.junk 9) (by intro n m h; cases h)⟩

/-- A `MatchReport` that already has a salt from an earlier encryption,
used to test salt stability under re-encryption. -/
def matchReportWithOldSalt : MatchReport :=
  { seen := false, encrypted := .junk 0, salt := "oldsalt" }

/-- Counterexample to C5 as stated: re-encrypting a `MatchReport` that
already has the non-empty salt "oldsalt" does not leave the salt
unchanged — `encrypt_match_report` assigns the fresh random salt
unconditionally. -/
theorem C5_salt_immutability_counterexample :
    matchReportWithOldSalt.salt = "oldsalt" ∧
    (matchReportWithOldSalt.encrypt_match_report "t" "k" "newsalt" 0 0).salt = "newsalt" ∧
    (matchReportWithOldSalt.encrypt_match_report "t" "k" "newsalt" 0 0).salt
      ≠ matchReportWithOldSalt.salt := by
  refine ⟨rfl, rfl, ?_⟩
  decide

/-- Claim C5 (amended): `Report.encrypt_report` never changes an already
non-empty salt, but `MatchReport.encrypt_match_report` stores the freshly
generated random salt on every call, regenerating it even when one is
already set. -/
theorem C5_salt_immutability_amended :
    (∀ (r : Report) (text key : String) (edit autosave : Bool) (fs : String) (n now : Nat),
      r.salt ≠ "" → (r.encrypt_report text key edit autosave fs n now).salt = r.salt) ∧
    (∀ (m : MatchReport) (text key fs : String) (n1 n2 : Nat),
      (m.encrypt_match_report text key fs n1 n2).salt = fs) := by
  constructor
  · intro r text key edit autosave fs n now h
    simp only [Report.encrypt_report]
    rw [if_neg h]
    split <;> rfl
  · intro m text key fs n1 n2
    rfl

/-- Witness for the amended C5: a report whose salt is "s" keeps that salt
across an edit re-encryption. -/
theorem C5_salt_immutability_witness :
    (Report.encrypt_report
      { encrypted := .junk 0, salt := "s", autosaved := false, last_edited := none,
        match_found := false } "t" "k" true false "fresh" 0 99).salt = "s" :=
  C5_salt_immutability_amended.1
    { encrypted := .junk 0, salt := "s", autosaved := false, last_edited := none,
      match_found := false } "t" "k" true false "fresh" 0 99 (by decide)

/-- A `MatchReport` honestly produced by `encrypt_match_report`, used to
show that a successful `get_match` does not set the seen flag. -/
def unseenMatchedRecord : MatchReport :=
  blankMatchReport.encrypt_match_report "matched-text" "id-x" "salt-x" 0 0

/-- Counterexample to C6 as stated: on this record trial decryption
succeeds (`get_match` returns the plaintext), yet the record's seen flag
is still false afterwards — the method assigns to no field. -/
theorem C6_seen_flag_counterexample :
    (unseenMatchedRecord.get_match "id-x").1 = .ok (some "matched-text") ∧
    (unseenMatchedRecord.get_match "id-x").2.seen = false := by
  constructor <;> rfl

/-- Claim C6 (amended): `MatchReport.get_match` never modifies the record;
in particular the seen flag is unchanged whether trial decryption succeeds
or fails (marking a matched record seen is left to callers outside this
module). -/
theorem C6_seen_flag_amended :
    ∀ (r : MatchReport) (identifier : String),
      (r.get_match identifier).2 = r ∧ (r.get_match identifier).2.seen = r.seen := by
  intro r identifier
  exact ⟨rfl, rfl⟩

/-- A report with a non-empty salt and no recorded edit time, used to test
the edit-timestamp discipline. -/
def saltedReport : Report :=
  { encrypted := .junk 0, salt := "s", autosaved := false, last_edited := none,
    match_found := false }

/-- Counterexample to C7 as stated: an autosave edit (edit true, autosave
true) of a report that already has a salt does update `last_edited` — the
code gates the timestamp only on `edit`, not on `autosave`. -/
theorem C7_edit_timestamp_counterexample :
    saltedReport.last_edited = none ∧
    (saltedReport.encrypt_report "t" "k" true true "fresh" 0 42).last_edited = some 42 := by
  constructor <;> rfl

/-- Claim C7 (amended): `last_edited` is set to the current time exactly
when the report already has a non-empty salt and `edit` is true,
regardless of `autosave`; when the salt is empty (first encryption) or
`edit` is false, `last_edited` is unchanged. -/
theorem C7_edit_timestamp_amended :
    ∀ (r : Report) (text key : String) (edit autosave : Bool) (fs : String) (n now : Nat),
      (r.salt ≠ "" → edit = true →
        (r.encrypt_report text key edit autosave fs n now).last_edited = some now) ∧
      (r.salt = "" ∨ edit = false →
        (r.encrypt_report text key edit autosave fs n now).last_edited = r.last_edited) := by
  intro r text key edit autosave fs n now
  constructor
  · intro hsalt hedit
    simp only [Report.encrypt_report]
    rw [if_neg hsalt, hedit, if_pos rfl]
  · intro h
    simp only [Report.encrypt_report]
    rcases h with h | h
    · rw [if_pos h]
    · by_cases hsalt : r.salt = ""
      · rw [if_pos hsalt]
      · rw [if_neg hsalt, h]
        simp

/-- Witness for the amended C7: a true edit of a salted report records the
time 42, and an autosave-flagged first save of a saltless report leaves
`last_edited` untouched. -/
theorem C7_edit_timestamp_witness :
    (saltedReport.encrypt_report "t" "k" true false "fresh" 0 42).last_edited = some 42 :=
  (C7_edit_timestamp_amended saltedReport "t" "k" true false "fresh" 0 42).1
    (by decide) rfl

/-- Claim C8: `withdraw_from_matching` deletes all associated
`MatchReport` rows and clears `match_found`, and doing it twice gives the
same state as doing it once. -/
theorem C8_withdraw_idempotent :
    ∀ (s : ReportState),
      (Report.withdraw_from_matching s).matchreport_set = [] ∧
      (Report.withdraw_from_matching s).report.match_found = false ∧
      Report.withdraw_from_matching (Report.withdraw_from_matching s)
        = Report.withdraw_from_matching s := by
  intro s
  refine ⟨rfl, rfl, rfl⟩

/-- The outermost `SecretBox` key of a ciphertext blob, when the blob is
one. -/
def Bytes.outerKey : Bytes → Option (List Nat)
  | .sealed k _ _ => some k
  | _ => none

/-- A stretched user key always contains the out-of-range separator code
1114112 (and the iteration count), while the pepper key is a 32-byte
server secret; they are never equal. -/
theorem pbkdf2_ne_PEPPER (key salt : String) (iterations : Nat) :
    pbkdf2 key salt iterations ≠ PEPPER := by
  intro h
  have h1 : (1114112 : Nat) ∈ pbkdf2 key salt iterations := by
    simp [pbkdf2]
  rw [h] at h1
  simp [PEPPER, List.mem_range] at h1

/-- Claim C9: blob layout and double encryption — `_encrypt_report` yields
the nonce-prefixed authenticated ciphertext of the UTF-8 plaintext under
the stretched key; `encrypt_match_report` stores the pepper-encryption of
such a blob (two cipher layers with the two independent nonces);
`Report.encrypt_report` stores a single-layer blob whose outer key is the
stretched user key, never the pepper key. -/
theorem C9_blob_layout :
    (∀ (salt key text : String) (nonce : Nat),
      _encrypt_report salt key text nonce
        = .sealed (pbkdf2 key salt KEY_ITERATIONS) nonce (.utf8 text) ∧
      (_encrypt_report salt key text nonce).blobNonce = some nonce) ∧
    (∀ (m : MatchReport) (text key fs : String) (n1 n2 : Nat),
      (m.encrypt_match_report text key fs n1 n2).encrypted
        = _pepper (_encrypt_report fs key text n1) n2 ∧
      (m.encrypt_match_report text key fs n1 n2).encrypted
        = .sealed PEPPER n2 (.sealed (pbkdf2 key fs KEY_ITERATIONS) n1 (.utf8 text))) ∧
    (∀ (r : Report) (text key : String) (edit autosave : Bool) (fs : String) (n now : Nat),
      (r.encrypt_report text key edit autosave fs n now).encrypted
        = _encrypt_report (r.encrypt_report text key edit autosave fs n now).salt key text n ∧
      ((r.encrypt_report text key edit autosave fs n now).encrypted).outerKey
        ≠ some PEPPER) := by
  refine ⟨?_, ?_, ?_⟩
  · intro salt key text nonce
    exact ⟨rfl, rfl⟩
  · intro m text key fs n1 n2
    exact ⟨rfl, rfl⟩
  · intro r text key edit autosave fs n now
    refine ⟨rfl, ?_⟩
    intro hcontra
    exact pbkdf2_ne_PEPPER key
      (r.encrypt_report text key edit autosave fs n now).salt KEY_ITERATIONS
      (Option.some.inj hcontra)

/-- Witness for C9: a concrete first encryption of a report stores a blob
whose outer key is not the pepper key. -/
theorem C9_blob_layout_witness :
    ((Report.encrypt_report
        { encrypted := .junk 0, salt := "", autosaved := false, last_edited := none,
          match_found := false } "t" "k" false false "fresh" 3 0).encrypted).outerKey
      ≠ some PEPPER :=
  (C9_blob_layout.2.2
    { encrypted := .junk 0, salt := "", autosaved := false, last_edited := none,
      match_found := false } "t" "k" false false "fresh" 3 0).2

/-- Claim C10 (amended): `MatchReport.get_match` never lets a
`CryptoError` escape — every `CryptoError` from the unpepper step or the
decryption step is caught and the call returns `None`; the only exception
that can escape is a `UnicodeDecodeError` from decoding a successfully
decrypted payload that is not valid UTF-8. -/
theorem C10_get_match_catches_crypto_errors :
    ∀ (r : MatchReport) (identifier : String),
      (r.get_match identifier).1 ≠ .error Exc.CryptoError ∧
      (∀ e : Exc, (r.get_match identifier).1 = .error e → e = .UnicodeDecodeError) := by
  intro r identifier
  simp only [MatchReport.get_match]
  cases h1 : _unpepper r.encrypted with
  | error e =>
    cases e <;> simp
  | ok inner =>
    cases h2 : _decrypt_report r.salt identifier inner with
    | error e =>
      cases e <;> simp [h2]
    | ok s =>
      simp [h2]

/-- A `MatchReport` whose blob unpeppers and decrypts under the stretched
identifier key "id", but to payload bytes that are not valid UTF-8. -/
def poisonedMatchRecord : MatchReport :=
  { seen := false, salt := "s",
    encrypted := _pepper (SecretBox.encrypt (pbkdf2 "id" "s" KEY_ITERATIONS) (.junk 0) 1) 2 }

/-- Counterexample to C10 as stated: on this stored blob both crypto steps
succeed but the UTF-8 decode fails, and `get_match` propagates the
`UnicodeDecodeError` instead of returning `None` — so `get_match` is not
total over all stored blobs. -/
theorem C10_get_match_counterexample :
    (poisonedMatchRecord.get_match "id").1 = .error Exc.UnicodeDecodeError := by
  rfl

/-- Witness for the amended C10: on the poisoned record the escaping
exception is a `UnicodeDecodeError`, never a `CryptoError`. -/
theorem C10_get_match_witness :
    (poisonedMatchRecord.get_match "id").1 ≠ .error Exc.CryptoError :=
  (C10_get_match_catches_crypto_errors poisonedMatchRecord "id").1
